import Mathlib

/-!
Verification development for the Micro-CDN coordination core: the index
server registry and selection logic (src/index_server.py), the monitor
heartbeat/timeout state machine and failure-notification path
(src/monitor_server.py), and the content-server transfer handler
(src/content_server.py).  Wire messages are modelled as the decoded,
stripped strings the Python handlers operate on; token splitting and
integer parsing mirror Python str.split() and int().
-/

namespace MicroCDN

/-! ## String helpers mirroring the Python primitives -/

/-- Helper for `pyTokens`: split a character list on runs of spaces,
accumulating the current word in reverse (mirrors Python str.split()). -/
def wordsAux : List Char → List Char → List String
  | [], acc => if acc.isEmpty then [] else [String.mk acc.reverse]
  | c :: cs, acc =>
    if c = ' ' then
      if acc.isEmpty then wordsAux cs [] else String.mk acc.reverse :: wordsAux cs []
    else wordsAux cs (c :: acc)

/-- Python str.split() with no argument: whitespace-separated tokens,
empty tokens dropped.  The handlers only ever see space-separated lines. -/
def pyTokens (s : String) : List String := wordsAux s.data []

/-- Python str.startswith. -/
def pyStartswith (s pre : String) : Bool := pre.data.isPrefixOf s.data

/-- Decimal digit value of a character, if it is a digit. -/
def digitVal (c : Char) : Option Nat :=
  if c.isDigit then some (c.toNat - 48) else none

/-- Accumulate a decimal number over a character list; fails on the first
non-digit character. -/
def parseNatAux : List Char → Nat → Option Nat
  | [], acc => some acc
  | c :: cs, acc =>
    match digitVal c with
    | some d => parseNatAux cs (acc * 10 + d)
    | none => none

/-- Python int() on a whitespace-free token: optional sign followed by at
least one decimal digit; any other input raises (modelled as `none`). -/
def pyInt (s : String) : Option Int :=
  match s.data with
  | [] => none
  | '-' :: cs => if cs.isEmpty then none else (parseNatAux cs 0).map (fun n => -(n : Int))
  | '+' :: cs => if cs.isEmpty then none else (parseNatAux cs 0).map (fun n => (n : Int))
  | cs => (parseNatAux cs 0).map (fun n => (n : Int))

/-! ## Association lists modelling the Python dicts

Python dicts keep insertion order and have unique keys; they are modelled
as association lists where `aset` overwrites the first matching key in
place and otherwise appends at the end, and `alookup` returns the first
match. -/

/-- First-match lookup in an association list (Python `d[k]` / `k in d`). -/
def alookup {β : Type} : List (String × β) → String → Option β
  | [], _ => none
  | (k0, v0) :: rest, k => if k0 = k then some v0 else alookup rest k

/-- Update the first binding of a key in place, or append a new binding at
the end (Python `d[k] = v`). -/
def aset {β : Type} : List (String × β) → String → β → List (String × β)
  | [], k, v => [(k, v)]
  | (k0, v0) :: rest, k, v =>
    if k0 = k then (k, v) :: rest else (k0, v0) :: aset rest k v

theorem alookup_aset_self {β : Type} (l : List (String × β)) (k : String) (v : β) :
    alookup (aset l k v) k = some v := by
  induction l with
  | nil => simp [aset, alookup]
  | cons p rest ih =>
    obtain ⟨k0, v0⟩ := p
    by_cases h : k0 = k
    · simp [aset, alookup, h]
    · simp [aset, alookup, h, ih]

theorem alookup_aset_ne {β : Type} (l : List (String × β)) (k k' : String) (v : β)
    (h : k' ≠ k) : alookup (aset l k v) k' = alookup l k' := by
  have hk : k ≠ k' := fun hh => h hh.symm
  induction l with
  | nil => simp [aset, alookup, hk]
  | cons p rest ih =>
    obtain ⟨k0, v0⟩ := p
    by_cases h0 : k0 = k
    · subst h0
      simp [aset, alookup, hk]
    · simp only [aset, if_neg h0]
      by_cases h1 : k0 = k'
      · simp [alookup, h1]
      · simp [alookup, h1, ih]

/-! ## Index server data model (src/index_server.py)

`content_servers` maps a server id to its metadata dict and `file_index`
maps a file name to the list of (server_id, file_size) pairs hosting it. -/

/-- One entry of the `content_servers` dict of the index server. -/
structure ServerRecord where
  ip : String
  tcp_port : Int
  udp_port : Int
  load : Int
  last_update : Int
  status : String
deriving DecidableEq, Repr

/-- The `content_servers` dict: server_id to record. -/
abbrev Registry := List (String × ServerRecord)

/-- The hosts of one file: (server_id, file_size) pairs. -/
abbrev Hosts := List (String × Int)

/-- The `file_index` dict: file_name to hosts. -/
abbrev FileIndex := List (String × Hosts)

/-- Combined mutable state of the index server. -/
structure IndexState where
  content_servers : Registry
  file_index : FileIndex
deriving DecidableEq, Repr

/-- REGISTER handling in `handle_content_server`: overwrite the whole
record with load 0, status "alive" and a fresh `last_update`. -/
def register (cs : Registry) (sid ip : String) (tcp udp now : Int) : Registry :=
  aset cs sid ⟨ip, tcp, udp, 0, now, "alive"⟩

/-- Ensure the file has an entry in the index (the
`if file_name not in file_index` step of ADD_FILE handling). -/
def ensureKey (fi : FileIndex) (f : String) : FileIndex :=
  match alookup fi f with
  | some _ => fi
  | none => fi ++ [(f, [])]

/-- ADD_FILE handling in `handle_content_server`: ensure the file entry
exists, then append (sid, size) unless an entry for sid is already there. -/
def add_file (fi : FileIndex) (sid f : String) (size : Int) : FileIndex :=
  if ((alookup (ensureKey fi f) f).getD []).any (fun p => p.1 == sid) then ensureKey fi f
  else aset (ensureKey fi f) f (((alookup (ensureKey fi f) f).getD []) ++ [(sid, size)])

/-- A selection candidate as built by `select_best_server`:
(server_id, server record, file_size). -/
abbrev Candidate := String × ServerRecord × Int

/-- The body of the candidate-collection loop of `select_best_server`: a
host contributes a candidate when it is present in the registry with
status "alive". -/
def candidateOf (cs : Registry) (p : String × Int) : Option Candidate :=
  match alookup cs p.1 with
  | some srv => if srv.status = "alive" then some (p.1, srv, p.2) else none
  | none => none

/-- The candidate list of `select_best_server`: hosts of the file that are
present in the registry with status "alive". -/
def candidatesFor (fi : FileIndex) (cs : Registry) (f : String) : List Candidate :=
  match alookup fi f with
  | none => []
  | some hosts => hosts.filterMap (candidateOf cs)

/-- The sort key of `candidates.sort(key=lambda x: x[1] load)`. -/
def loadLE (a b : Candidate) : Prop := a.2.1.load ≤ b.2.1.load

instance : DecidableRel loadLE := fun a b => Int.decLe a.2.1.load b.2.1.load

instance : IsTotal Candidate loadLE := ⟨fun a b => Int.le_total a.2.1.load b.2.1.load⟩

instance : IsTrans Candidate loadLE := ⟨fun _ _ _ h1 h2 => Int.le_trans h1 h2⟩

/-- `select_best_server`: sort the candidates by load (Python list.sort is
stable, as is insertion sort) and return the record and size of the first,
or none (the Python `(None, None)`) when the file is unknown or has no
alive registered host. -/
def select_best_server (fi : FileIndex) (cs : Registry) (f : String) :
    Option (ServerRecord × Int) :=
  match List.insertionSort loadLE (candidatesFor fi cs f) with
  | [] => none
  | c :: _ => some (c.2.1, c.2.2)

/-! ## Health refresh from the Monitor (get_server_health_from_monitor)

The network answer of the Monitor is abstracted as an optional list of
response lines: `none` models any connection or receive failure (the
`except` arm returns `False` with the registry untouched), `some lines`
models a received LIST_SERVERS answer. -/

/-- Apply one response line of the Monitor to the registry: a SERVER line
with at least six tokens overwrites load and status of a known server id;
`none` models the failure raised by int() on a bad load field. -/
def applyMonitorLine (cs : Registry) (line : String) : Option Registry :=
  if pyStartswith line "SERVER" then
    let parts := pyTokens line
    if 6 ≤ parts.length then
      let sid := parts.getD 1 ""
      match alookup cs sid with
      | some srv =>
        match pyInt (parts.getD 4 "") with
        | some load => some (aset cs sid { srv with load := load, status := parts.getD 5 "" })
        | none => none
      | none => some cs
    else some cs
  else some cs

/-- Apply the Monitor response lines in order; a raised failure keeps the
updates applied so far and reports `false`. -/
def applyMonitorLines (cs : Registry) : List String → Registry × Bool
  | [] => (cs, true)
  | l :: ls =>
    match applyMonitorLine cs l with
    | some cs1 => applyMonitorLines cs1 ls
    | none => (cs, false)

/-- `get_server_health_from_monitor`: on an unreachable Monitor (`none`)
the exception handler returns `False` and the registry keeps its
last-known values; otherwise the response lines are merged in. -/
def get_server_health_from_monitor (mon : Option (List String)) (cs : Registry) :
    Registry × Bool :=
  match mon with
  | none => (cs, false)
  | some lines => applyMonitorLines cs lines

/-! ## Client query handling (handle_client) -/

/-- The SERVER response line of a successful GET: the server id is
recovered by scanning the registry for the first record equal to the
selected one (the record dict itself has no server_id key). -/
def serverLine (cs : Registry) (srv : ServerRecord) (size : Int) : String :=
  match cs.find? (fun p => p.2 == srv) with
  | some p =>
      "SERVER " ++ srv.ip ++ " " ++ toString srv.tcp_port ++ " " ++ p.1 ++ " " ++ toString size
  | none =>
      "SERVER " ++ srv.ip ++ " " ++ toString srv.tcp_port ++ " unknown " ++ toString size

/-- The response of the GET branch once the file name is extracted,
computed from the (already refreshed) state. -/
def getResponse (st : IndexState) (f : String) : String :=
  match select_best_server st.file_index st.content_servers f with
  | some (srv, size) => serverLine st.content_servers srv size
  | none => "ERROR FILE_NOT_FOUND"

/-- LIST_FILES response lines: for each file, the first alive registered
host contributes one FILE line. -/
def listFilesLines (st : IndexState) : List String :=
  (st.file_index.filterMap fun p =>
    (p.2.find? fun h =>
        match alookup st.content_servers h.1 with
        | some srv => srv.status == "alive"
        | none => false).map
      fun h => "FILE " ++ p.1 ++ " " ++ toString h.2) ++ ["END"]

/-- LIST_SERVERS response lines of the index server. -/
def listServersLinesIdx (cs : Registry) : List String :=
  (cs.map fun p =>
    "SERVER " ++ p.1 ++ " " ++ p.2.ip ++ " " ++ toString p.2.tcp_port ++ " " ++
      toString p.2.load ++ " " ++ p.2.status) ++ ["END"]

/-- One message of `handle_client`.  `mon` is the answer the Monitor would
give to the health refresh performed by the GET branch (`none` =
unreachable).  Returns the new state and the response lines sent. -/
def handle_client_message (st : IndexState) (mon : Option (List String)) (msg : String) :
    IndexState × List String :=
  if msg = "HELLO" then (st, ["WELCOME MICRO-CDN"])
  else if pyStartswith msg "GET" then
    let parts := pyTokens msg
    if 2 ≤ parts.length then
      let f := parts.getD 1 ""
      let st1 : IndexState :=
        { st with content_servers := (get_server_health_from_monitor mon st.content_servers).1 }
      (st1, [getResponse st1 f])
    else (st, ["ERROR INVALID_FORMAT"])
  else if msg = "LIST_FILES" then (st, listFilesLines st)
  else if msg = "LIST_SERVERS" then (st, listServersLinesIdx st.content_servers)
  else (st, ["ERROR UNKNOWN_COMMAND"])

/-- The receive loop of `handle_client`: one message per recv, the
connection stays open across messages. -/
def handle_client_messages (st : IndexState) (mon : Option (List String)) :
    List String → IndexState × List (List String)
  | [] => (st, [])
  | m :: ms =>
    let r1 := handle_client_message st mon m
    let r := handle_client_messages r1.1 mon ms
    (r.1, r1.2 :: r.2)

/-! ## Content-server registration handling (handle_content_server) -/

/-- One line of `handle_content_server` from peer address `ip` at time
`now`.  `Except.error st1` models an uncaught failure (a bad int() field):
the handler closes the connection, keeping the mutations applied before
the failure, and sends nothing further.  On success the new state and the
response lines are returned; several branches send no response at all. -/
def handle_cs_line (st : IndexState) (ip : String) (now : Int) (line : String) :
    Except IndexState (IndexState × List String) :=
  if pyStartswith line "REGISTER" then
    let parts := pyTokens line
    if 4 ≤ parts.length then
      match pyInt (parts.getD 2 ""), pyInt (parts.getD 3 "") with
      | some tcp, some udp =>
        .ok ({ st with content_servers := register st.content_servers (parts.getD 1 "") ip tcp udp now },
          ["OK REGISTERED"])
      | some _, none => .error st
      | none, _ => .error st
    else .ok (st, ["ERROR INVALID_FORMAT"])
  else if pyStartswith line "ADD_FILE" then
    let parts := pyTokens line
    if 4 ≤ parts.length then
      let sid := parts.getD 1 ""
      let f := parts.getD 2 ""
      let fi1 := ensureKey st.file_index f
      let hosts := (alookup fi1 f).getD []
      if hosts.any (fun h => h.1 == sid) then .ok ({ st with file_index := fi1 }, [])
      else
        match pyInt (parts.getD 3 "") with
        | some sz => .ok ({ st with file_index := add_file st.file_index sid f sz }, [])
        | none => .error { st with file_index := fi1 }
    else .ok (st, [])
  else if line = "DONE_FILES" then .ok (st, ["OK FILES_ADDED"])
  else if pyStartswith line "UPDATE_LOAD" then
    let parts := pyTokens line
    if 3 ≤ parts.length then
      let sid := parts.getD 1 ""
      match alookup st.content_servers sid with
      | some srv =>
        match pyInt (parts.getD 2 "") with
        | some load =>
          let cs1 := aset st.content_servers sid { srv with load := load, last_update := now }
          .ok ({ st with content_servers := cs1 }, ["OK"])
        | none => .error st
      | none => .ok (st, ["OK"])
    else .ok (st, [])
  else .ok (st, [])

/-! ## Monitor data model (src/monitor_server.py) -/

/-- One entry of the `servers` dict of the Monitor. -/
structure HeartbeatRecord where
  ip : String
  tcp_port : Int
  last_seen : Int
  load : Int
  num_files : Int
  status : String
deriving DecidableEq, Repr

/-- The Monitor `servers` dict. -/
abbrev MonitorMap := List (String × HeartbeatRecord)

/-- HEARTBEAT_TIMEOUT: seconds of silence after which a server is dead. -/
def HEARTBEAT_TIMEOUT : Int := 8

/-- One datagram of `udp_heartbeat_listener` at time `now`.  Returns the
updated map, the logged event (`some true` = came back online,
`some false` = ordinary heartbeat, `none` = datagram ignored), and the
failure notifications sent (the listener never sends any; only the health
checker does).  A malformed datagram, including one whose integer fields
do not parse, leaves the map unchanged: in the source the int()
conversions happen while building the record, before the dict assignment,
and the failure is swallowed by the loop. -/
def processHeartbeat (servers : MonitorMap) (now : Int) (msg : String) :
    MonitorMap × Option Bool × List String :=
  if pyStartswith msg "HEARTBEAT" then
    let parts := pyTokens msg
    if 6 ≤ parts.length then
      let sid := parts.getD 1 ""
      match pyInt (parts.getD 3 ""), pyInt (parts.getD 4 ""), pyInt (parts.getD 5 "") with
      | some tcp, some load, some nf =>
        let was_dead :=
          match alookup servers sid with
          | some r => r.status == "dead"
          | none => false
        (aset servers sid ⟨parts.getD 2 "", tcp, now, load, nf, "alive"⟩, some was_dead, [])
      | some _, some _, none => (servers, none, [])
      | some _, none, _ => (servers, none, [])
      | none, _, _ => (servers, none, [])
    else (servers, none, [])
  else (servers, none, [])

/-- The heartbeat listener loop: each iteration processes one datagram and
continues regardless of failures. -/
def runHeartbeats (servers : MonitorMap) : List (Int × String) → MonitorMap
  | [] => servers
  | (now, msg) :: rest => runHeartbeats (processHeartbeat servers now msg).1 rest

/-- One sweep of `check_server_health` at time `now`: every record that is
alive and silent for more than HEARTBEAT_TIMEOUT is flipped to dead and
`notify_index_server_failure` is invoked for it; the second component
lists those invocations in iteration order. -/
def check_sweep (now : Int) : MonitorMap → MonitorMap × List String
  | [] => ([], [])
  | (sid, info) :: rest =>
    let r := check_sweep now rest
    if info.status = "alive" ∧ now - info.last_seen > HEARTBEAT_TIMEOUT then
      ((sid, { info with status := "dead" }) :: r.1, sid :: r.2)
    else ((sid, info) :: r.1, r.2)

/-! ## Monitor TCP handler (handle_tcp_client) -/

/-- State touched by the Monitor TCP handler: the servers map and the
registered notification target of the index server. -/
structure MonitorTCPState where
  servers : MonitorMap
  index_server_addr : Option (String × Int)
deriving DecidableEq, Repr

/-- LIST_SERVERS response lines of the Monitor. -/
def listServersLinesMon (servers : MonitorMap) : List String :=
  (servers.map fun p =>
    "SERVER " ++ p.1 ++ " " ++ p.2.ip ++ " " ++ toString p.2.tcp_port ++ " " ++
      toString p.2.load ++ " " ++ p.2.status) ++ ["END"]

/-- One message of `handle_tcp_client`; `none` models the uncaught
int() failure of a bad REGISTER_INDEX port (connection closes with no
response). -/
def handle_tcp_message (st : MonitorTCPState) (msg : String) :
    Option (MonitorTCPState × List String) :=
  if msg = "LIST_SERVERS" then some (st, listServersLinesMon st.servers)
  else if pyStartswith msg "REGISTER_INDEX" then
    let parts := pyTokens msg
    if 3 ≤ parts.length then
      match pyInt (parts.getD 2 "") with
      | some port =>
        some ({ st with index_server_addr := some (parts.getD 1 "", port) },
          ["OK INDEX_REGISTERED"])
      | none => none
    else some (st, ["ERROR INVALID_FORMAT"])
  else if msg = "PING" then some (st, ["PONG"])
  else some (st, ["ERROR UNKNOWN_COMMAND"])

/-- The receive loop of `handle_tcp_client`; an uncaught failure ends the
connection, otherwise the loop continues with the next message. -/
def handle_tcp_messages (st : MonitorTCPState) :
    List String → MonitorTCPState × List (List String)
  | [] => (st, [])
  | m :: ms =>
    match handle_tcp_message st m with
    | none => (st, [])
    | some (st1, resp) =>
      let r := handle_tcp_messages st1 ms
      (r.1, resp :: r.2)

/-! ## Content server transfer handler (ContentServer.handle_client) -/

/-- The one-request transfer handler of a content server with catalog
`files` (name to size): the response line sent before the raw byte stream
(the stream itself is a transfer detail outside this model).  The
connection closes after the first response. -/
def cs_handle_client (files : List (String × Int)) (msg : String) : List String :=
  if pyStartswith msg "GET" then
    let parts := pyTokens msg
    if 2 ≤ parts.length then
      match alookup files (parts.getD 1 "") with
      | some size => ["OK " ++ toString size]
      | none => ["ERROR FILE_NOT_FOUND"]
    else ["ERROR INVALID_FORMAT"]
  else ["ERROR UNKNOWN_COMMAND"]

/-! ## Derived definitions and concrete fixtures used by the theorems -/

/-- The file-index invariant: at most one entry per (file_name, server_id)
pair, i.e. the server ids listed for each file are distinct. -/
def HostsNodup (fi : FileIndex) : Prop :=
  ∀ f hosts, alookup fi f = some hosts → (hosts.map Prod.fst).Nodup

/-- A sequence of ADD_FILE operations (server_id, file_name, size) applied
in order to a file index. -/
def run_add_files : FileIndex → List (String × String × Int) → FileIndex
  | fi, [] => fi
  | fi, (sid, f, sz) :: ops => run_add_files (add_file fi sid f sz) ops

/-- Fixture: alive server with load 3. -/
def srvW1 : ServerRecord := ⟨"10.0.0.1", 7001, 7002, 3, 0, "alive"⟩

/-- Fixture: alive server with load 1. -/
def srvW2 : ServerRecord := ⟨"10.0.0.2", 7003, 7004, 1, 0, "alive"⟩

/-- Fixture: alive server with load 5. -/
def srvW3 : ServerRecord := ⟨"10.0.0.3", 7005, 7006, 5, 0, "alive"⟩

/-- Fixture registry with loads 3, 1 and 5. -/
def csW : Registry := [("CS1", srvW1), ("CS2", srvW2), ("CS3", srvW3)]

/-- Fixture host list: the file is on all three servers. -/
def hostsW : Hosts := [("CS1", 100), ("CS2", 100), ("CS3", 100)]

/-- Fixture file index for `hostsW`. -/
def fiW : FileIndex := [("a.txt", hostsW)]

/-- Fixture: a dead server record. -/
def srvDeadW : ServerRecord := ⟨"10.0.0.4", 7007, 7008, 0, 0, "dead"⟩

/-- Fixture index state whose only host for b.txt is dead. -/
def stDeadW : IndexState := ⟨[("CS4", srvDeadW)], [("b.txt", [("CS4", 50)])]⟩

/-- Fixture: a server record with accumulated load and dead status. -/
def srvLoadedW : ServerRecord := ⟨"10.0.0.9", 9001, 9002, 7, 11, "dead"⟩

/-- Fixture: a Monitor record that is alive but stale at time 30. -/
def hbStaleW : HeartbeatRecord := ⟨"localhost", 7001, 10, 0, 3, "alive"⟩

/-- Fixture: a Monitor record that is already dead. -/
def hbDeadW : HeartbeatRecord := ⟨"localhost", 7003, 5, 0, 3, "dead"⟩

/-- Fixture Monitor map with one stale-alive and one dead record. -/
def monW : MonitorMap := [("CS1", hbStaleW), ("CS2", hbDeadW)]

/-! ## Supporting lemmas about candidate selection -/

theorem candidateOf_eq_some {cs : Registry} {p : String × Int} {c : Candidate} :
    candidateOf cs p = some c ↔
      c.1 = p.1 ∧ c.2.2 = p.2 ∧ alookup cs p.1 = some c.2.1 ∧ c.2.1.status = "alive" := by
  unfold candidateOf
  cases hcs : alookup cs p.1 with
  | none => simp
  | some srv =>
    by_cases hs : srv.status = "alive"
    · simp only [if_pos hs, Option.some.injEq]
      constructor
      · rintro rfl
        exact ⟨rfl, rfl, rfl, hs⟩
      · rintro ⟨h1, h2, h3, _⟩
        obtain ⟨c1, c2, c3⟩ := c
        simp only at h1 h2 h3
        subst h3
        simp [h1, h2]
    · simp only [if_neg hs]
      constructor
      · rintro ⟨⟩
      · rintro ⟨_, _, h3, h4⟩
        obtain rfl := Option.some.inj h3
        exact absurd h4 hs

theorem mem_candidatesFor {fi : FileIndex} {cs : Registry} {f : String} {c : Candidate} :
    c ∈ candidatesFor fi cs f ↔
      ∃ hosts, alookup fi f = some hosts ∧ (c.1, c.2.2) ∈ hosts ∧
        alookup cs c.1 = some c.2.1 ∧ c.2.1.status = "alive" := by
  unfold candidatesFor
  cases hf : alookup fi f with
  | none => simp
  | some hosts =>
    simp only [List.mem_filterMap, Option.some.injEq]
    constructor
    · rintro ⟨p, hp, hg⟩
      rw [candidateOf_eq_some] at hg
      obtain ⟨h1, h2, h3, h4⟩ := hg
      refine ⟨hosts, rfl, ?_, by rw [h1]; exact h3, h4⟩
      obtain ⟨p1, p2⟩ := p
      simp only at h1 h2
      rw [h1, h2]
      exact hp
    · rintro ⟨hosts2, heq, hmem, hcs, hstat⟩
      subst heq
      refine ⟨(c.1, c.2.2), hmem, ?_⟩
      rw [candidateOf_eq_some]
      exact ⟨rfl, rfl, hcs, hstat⟩

/-- The head of the load-sorted candidate list is a candidate of minimal
load; this is exactly what `select_best_server` returns. -/
theorem select_best_spec (fi : FileIndex) (cs : Registry) (f : String)
    (hne : candidatesFor fi cs f ≠ []) :
    ∃ c ∈ candidatesFor fi cs f, select_best_server fi cs f = some (c.2.1, c.2.2) ∧
      ∀ c2 ∈ candidatesFor fi cs f, c.2.1.load ≤ c2.2.1.load := by
  have hperm := List.perm_insertionSort loadLE (candidatesFor fi cs f)
  have hsorted := List.sorted_insertionSort loadLE (candidatesFor fi cs f)
  cases hL : List.insertionSort loadLE (candidatesFor fi cs f) with
  | nil =>
    rw [hL] at hperm
    exact absurd (List.Perm.nil_eq hperm).symm hne
  | cons c rest =>
    have hcmem : c ∈ candidatesFor fi cs f := by
      have : c ∈ List.insertionSort loadLE (candidatesFor fi cs f) := by
        rw [hL]; exact List.mem_cons_self c rest
      exact hperm.subset this
    refine ⟨c, hcmem, ?_, ?_⟩
    · unfold select_best_server
      rw [hL]
    · intro c2 hc2
      have h2 : c2 ∈ List.insertionSort loadLE (candidatesFor fi cs f) :=
        hperm.mem_iff.mpr hc2
      rw [hL] at h2 hsorted
      rcases List.mem_cons.mp h2 with rfl | h2
      · exact le_refl _
      · exact List.rel_of_sorted_cons hsorted c2 h2

/-- C1: for every file name f present in the file index with at least one
hosting server that is present in the registry with status "alive",
select_best_server returns the server info and size of an alive host whose
load is minimal among all alive registered hosts of f. -/
theorem select_best_min_load (fi : FileIndex) (cs : Registry) (f : String) (hosts : Hosts)
    (hf : alookup fi f = some hosts)
    (sid0 : String) (sz0 : Int) (srv0 : ServerRecord)
    (h0 : (sid0, sz0) ∈ hosts) (hr0 : alookup cs sid0 = some srv0)
    (ha0 : srv0.status = "alive") :
    ∃ sid srv sz, (sid, sz) ∈ hosts ∧ alookup cs sid = some srv ∧ srv.status = "alive" ∧
      select_best_server fi cs f = some (srv, sz) ∧
      ∀ sid2 sz2 srv2, (sid2, sz2) ∈ hosts → alookup cs sid2 = some srv2 →
        srv2.status = "alive" → srv.load ≤ srv2.load := by
  have hne : candidatesFor fi cs f ≠ [] := by
    intro hnil
    have : (sid0, srv0, sz0) ∈ candidatesFor fi cs f :=
      mem_candidatesFor.mpr ⟨hosts, hf, h0, hr0, ha0⟩
    rw [hnil] at this
    exact absurd this (List.not_mem_nil _)
  obtain ⟨c, hcmem, hsel, hmin⟩ := select_best_spec fi cs f hne
  obtain ⟨hosts2, hf2, hmem, hcs, hstat⟩ := mem_candidatesFor.mp hcmem
  rw [hf] at hf2
  obtain rfl := Option.some.inj hf2
  refine ⟨c.1, c.2.1, c.2.2, hmem, hcs, hstat, hsel, ?_⟩
  intro sid2 sz2 srv2 hmem2 hcs2 hstat2
  exact hmin (sid2, srv2, sz2) (mem_candidatesFor.mpr ⟨hosts, hf, hmem2, hcs2, hstat2⟩)

/-- Witness for C1 at the spec example loads 3, 1 and 5: the selected host
is the one with load 1. -/
theorem select_best_min_load_witness :
    ∃ sid srv sz, (sid, sz) ∈ hostsW ∧ alookup csW sid = some srv ∧ srv.status = "alive" ∧
      select_best_server fiW csW "a.txt" = some (srv, sz) ∧
      ∀ sid2 sz2 srv2, (sid2, sz2) ∈ hostsW → alookup csW sid2 = some srv2 →
        srv2.status = "alive" → srv.load ≤ srv2.load :=
  select_best_min_load fiW csW "a.txt" hostsW (by decide) "CS1" 100 srvW1 (by decide)
    (by decide) (by decide)

/-- C3: for every file name f, if f is not in the file index, or every
host of f is absent from the registry or has status "dead", then
select_best_server returns none and the client GET response is
ERROR FILE_NOT_FOUND, even when dead host entries for f exist. -/
theorem select_best_dead_not_found (st : IndexState) (f : String)
    (h : ∀ hosts, alookup st.file_index f = some hosts →
      ∀ sid sz, (sid, sz) ∈ hosts →
        alookup st.content_servers sid = none ∨
        ∀ srv, alookup st.content_servers sid = some srv → srv.status = "dead") :
    select_best_server st.file_index st.content_servers f = none ∧
    getResponse st f = "ERROR FILE_NOT_FOUND" := by
  have hnil : candidatesFor st.file_index st.content_servers f = [] := by
    rw [List.eq_nil_iff_forall_not_mem]
    intro c hc
    obtain ⟨hosts, hf, hmem, hcs, hstat⟩ := mem_candidatesFor.mp hc
    rcases h hosts hf c.1 c.2.2 hmem with hnone | hdead
    · rw [hcs] at hnone
      exact Option.noConfusion hnone
    · have hd := hdead c.2.1 hcs
      rw [hstat] at hd
      exact absurd hd (by decide)
  have hsel : select_best_server st.file_index st.content_servers f = none := by
    unfold select_best_server
    rw [hnil]
    rfl
  refine ⟨hsel, ?_⟩
  unfold getResponse
  rw [hsel]

/-- Witness for C3: b.txt is hosted only by the dead server CS4, which is
present in the registry, and the lookup still fails. -/
theorem select_best_dead_not_found_witness :
    select_best_server stDeadW.file_index stDeadW.content_servers "b.txt" = none ∧
    getResponse stDeadW "b.txt" = "ERROR FILE_NOT_FOUND" := by
  apply select_best_dead_not_found stDeadW "b.txt"
  intro hosts hf sid sz hmem
  have hh : hosts = [("CS4", (50 : Int))] := by
    have hv : alookup stDeadW.file_index "b.txt" = some [("CS4", (50 : Int))] := by decide
    rw [hv] at hf
    exact (Option.some.inj hf.symm)
  subst hh
  simp only [List.mem_singleton, Prod.mk.injEq] at hmem
  obtain ⟨rfl, rfl⟩ := hmem
  right
  intro srv hsrv
  have hv : alookup stDeadW.content_servers "CS4" = some srvDeadW := by decide
  rw [hv] at hsrv
  rw [← Option.some.inj hsrv]
  rfl

/-- C5: if the synchronous health refresh fails (Monitor unreachable,
modelled by the `none` answer), the refresh reports failure with the
registry untouched, and GET handling still answers from the stale
registry: the response is exactly the one `select_best_server` yields on
the unchanged state, with no failure escaping the handler. -/
theorem refresh_failure_nonfatal (st : IndexState) (m f : String)
    (hpre : pyStartswith m "GET" = true)
    (htok : pyTokens m = ["GET", f]) :
    get_server_health_from_monitor none st.content_servers = (st.content_servers, false) ∧
    handle_client_message st none m = (st, [getResponse st f]) := by
  refine ⟨rfl, ?_⟩
  have hne : m ≠ "HELLO" := by
    intro h
    subst h
    exact absurd hpre (by decide)
  unfold handle_client_message
  rw [if_neg hne, if_pos hpre]
  simp only [htok]
  rfl

/-- Witness for C5: a concrete GET against the fixture state with the
Monitor unreachable. -/
theorem refresh_failure_nonfatal_witness :
    get_server_health_from_monitor none stDeadW.content_servers =
      (stDeadW.content_servers, false) ∧
    handle_client_message stDeadW none "GET b.txt" = (stDeadW, [getResponse stDeadW "b.txt"]) :=
  refresh_failure_nonfatal stDeadW "GET b.txt" "b.txt" (by decide) (by decide)

/-- C7: register creates or entirely replaces the record of a server id
with load 0, status "alive" and last_update now, leaving every other id
untouched; re-registering discards any accumulated load or dead status. -/
theorem register_overwrites (cs : Registry) (sid ip : String) (tcp udp now : Int) :
    alookup (register cs sid ip tcp udp now) sid = some ⟨ip, tcp, udp, 0, now, "alive"⟩ ∧
    ∀ sid2, sid2 ≠ sid → alookup (register cs sid ip tcp udp now) sid2 = alookup cs sid2 :=
  ⟨alookup_aset_self cs sid _, fun sid2 h => alookup_aset_ne cs sid sid2 _ h⟩

/-- Witness for C7: re-registering CS1, whose record has load 7 and status
dead, resets it to the defaults and leaves CS2 lookups unchanged. -/
theorem register_overwrites_witness :
    alookup (register [("CS1", srvLoadedW)] "CS1" "10.0.0.9" 9001 9002 42) "CS1" =
      some ⟨"10.0.0.9", 9001, 9002, 0, 42, "alive"⟩ ∧
    alookup (register [("CS1", srvLoadedW)] "CS1" "10.0.0.9" 9001 9002 42) "CS2" =
      alookup [("CS1", srvLoadedW)] "CS2" :=
  ⟨(register_overwrites [("CS1", srvLoadedW)] "CS1" "10.0.0.9" 9001 9002 42).1,
    (register_overwrites [("CS1", srvLoadedW)] "CS1" "10.0.0.9" 9001 9002 42).2 "CS2"
      (by decide)⟩

/-! ## Lemmas about ensureKey and add_file -/

theorem alookup_append_of_none {β : Type} (l1 l2 : List (String × β)) (k : String)
    (h : alookup l1 k = none) : alookup (l1 ++ l2) k = alookup l2 k := by
  induction l1 with
  | nil => rfl
  | cons p rest ih =>
    obtain ⟨k0, v0⟩ := p
    by_cases h0 : k0 = k
    · rw [alookup, if_pos h0] at h
      exact Option.noConfusion h
    · rw [alookup, if_neg h0] at h
      rw [List.cons_append, alookup, if_neg h0]
      exact ih h

theorem alookup_append_of_some {β : Type} (l1 l2 : List (String × β)) (k : String) (v : β)
    (h : alookup l1 k = some v) : alookup (l1 ++ l2) k = some v := by
  induction l1 with
  | nil => exact Option.noConfusion h
  | cons p rest ih =>
    obtain ⟨k0, v0⟩ := p
    by_cases h0 : k0 = k
    · rw [alookup, if_pos h0] at h
      rw [List.cons_append, alookup, if_pos h0]
      exact h
    · rw [alookup, if_neg h0] at h
      rw [List.cons_append, alookup, if_neg h0]
      exact ih h

theorem alookup_ensureKey_self (fi : FileIndex) (f : String) :
    alookup (ensureKey fi f) f = some ((alookup fi f).getD []) := by
  unfold ensureKey
  cases h : alookup fi f with
  | some hosts => simp [h]
  | none =>
    rw [alookup_append_of_none fi _ f h]
    simp [alookup]

theorem alookup_ensureKey_ne (fi : FileIndex) (f f2 : String) (h : f2 ≠ f) :
    alookup (ensureKey fi f) f2 = alookup fi f2 := by
  unfold ensureKey
  cases hf : alookup fi f with
  | some hosts => rfl
  | none =>
    cases h2 : alookup fi f2 with
    | some v => rw [alookup_append_of_some fi _ f2 v h2]
    | none =>
      rw [alookup_append_of_none fi _ f2 h2, alookup, if_neg (fun hh => h hh.symm)]
      rfl

theorem alookup_add_file_self (fi : FileIndex) (sid f : String) (sz : Int) :
    alookup (add_file fi sid f sz) f =
      some (if ((alookup fi f).getD []).any (fun p => p.1 == sid)
            then (alookup fi f).getD []
            else (alookup fi f).getD [] ++ [(sid, sz)]) := by
  unfold add_file
  rw [alookup_ensureKey_self]
  simp only [Option.getD_some]
  by_cases hany : ((alookup fi f).getD []).any (fun p => p.1 == sid) = true
  · rw [if_pos hany, if_pos hany, alookup_ensureKey_self]
  · rw [if_neg hany, if_neg hany, alookup_aset_self]

theorem alookup_add_file_ne (fi : FileIndex) (sid f f2 : String) (sz : Int)
    (h : f2 ≠ f) : alookup (add_file fi sid f sz) f2 = alookup fi f2 := by
  unfold add_file
  by_cases hany : ((alookup (ensureKey fi f) f).getD []).any (fun p => p.1 == sid) = true
  · rw [if_pos hany]
    exact alookup_ensureKey_ne fi f f2 h
  · rw [if_neg hany, alookup_aset_ne _ _ _ _ h]
    exact alookup_ensureKey_ne fi f f2 h

theorem any_fst_eq_true {hosts : Hosts} {sid : String} :
    hosts.any (fun p => p.1 == sid) = true ↔ sid ∈ hosts.map Prod.fst := by
  rw [List.any_eq_true]
  constructor
  · rintro ⟨p, hp, hb⟩
    rw [List.mem_map]
    exact ⟨p, hp, by simpa using hb⟩
  · intro hm
    obtain ⟨p, hp, heq⟩ := List.mem_map.mp hm
    exact ⟨p, hp, by simp [heq]⟩

theorem add_file_preserves_nodup (fi : FileIndex) (sid f : String) (sz : Int)
    (h : HostsNodup fi) : HostsNodup (add_file fi sid f sz) := by
  intro f2 hosts2 h2
  by_cases hf : f2 = f
  · subst hf
    rw [alookup_add_file_self] at h2
    have hnd : (((alookup fi f2).getD []).map Prod.fst).Nodup := by
      cases hfi : alookup fi f2 with
      | some hs => simpa using h f2 hs hfi
      | none => simp
    by_cases hany : ((alookup fi f2).getD []).any (fun p => p.1 == sid) = true
    · rw [if_pos hany] at h2
      rw [← Option.some.inj h2]
      exact hnd
    · rw [if_neg hany] at h2
      rw [← Option.some.inj h2]
      have hnot : sid ∉ ((alookup fi f2).getD []).map Prod.fst := fun hm =>
        hany (any_fst_eq_true.mpr hm)
      rw [List.map_append]
      simp only [List.map_cons, List.map_nil]
      rw [List.nodup_append]
      exact ⟨hnd, List.nodup_singleton sid, by simpa using hnot⟩
  · rw [alookup_add_file_ne fi sid f f2 sz hf] at h2
    exact h f2 hosts2 h2

theorem run_add_files_nodup (ops : List (String × String × Int)) :
    ∀ fi, HostsNodup fi → HostsNodup (run_add_files fi ops) := by
  induction ops with
  | nil => exact fun fi h => h
  | cons op rest ih =>
    intro fi h
    obtain ⟨sid, f, sz⟩ := op
    exact ih _ (add_file_preserves_nodup fi sid f sz h)

/-- C6: an add_file for an already present (file_name, server_id) pair is
a no-op; after any sequence of add_file calls from the empty index each
file lists every server id at most once; and two identical
add_file(sid, f, sz) calls yield exactly one (sid, sz) entry for f. -/
theorem add_file_idempotent :
    (∀ fi sid f sz hosts, alookup fi f = some hosts → sid ∈ hosts.map Prod.fst →
        add_file fi sid f sz = fi) ∧
    (∀ ops, HostsNodup (run_add_files [] ops)) ∧
    (∀ fi sid f sz, (∀ hosts, alookup fi f = some hosts → sid ∉ hosts.map Prod.fst) →
        ∃ hosts, alookup (add_file (add_file fi sid f sz) sid f sz) f = some hosts ∧
          hosts.count (sid, sz) = 1) := by
  refine ⟨?_, ?_, ?_⟩
  · intro fi sid f sz hosts hf hmem
    have hkey : ensureKey fi f = fi := by
      unfold ensureKey
      rw [hf]
    have hany : ((alookup (ensureKey fi f) f).getD []).any (fun p => p.1 == sid) = true := by
      rw [hkey, hf]
      simpa using any_fst_eq_true.mpr hmem
    unfold add_file
    rw [if_pos hany]
    exact hkey
  · intro ops
    apply run_add_files_nodup
    intro f hosts hcontra
    exact Option.noConfusion hcontra
  · intro fi sid f sz hno
    have hnot : sid ∉ ((alookup fi f).getD []).map Prod.fst := by
      cases hfi : alookup fi f with
      | some hs => simpa [hfi] using hno hs hfi
      | none => simp
    have hany : ¬(((alookup fi f).getD []).any (fun p => p.1 == sid) = true) := fun ha =>
      hnot (any_fst_eq_true.mp ha)
    have h1 : alookup (add_file fi sid f sz) f =
        some ((alookup fi f).getD [] ++ [(sid, sz)]) := by
      rw [alookup_add_file_self, if_neg hany]
    have hany2 : (((alookup (add_file fi sid f sz) f).getD []).any
        (fun p => p.1 == sid)) = true := by
      rw [h1]
      simp only [Option.getD_some]
      rw [any_fst_eq_true, List.map_append]
      simp
    have h2 : alookup (add_file (add_file fi sid f sz) sid f sz) f =
        some ((alookup fi f).getD [] ++ [(sid, sz)]) := by
      rw [alookup_add_file_self]
      rw [h1]
      simp only [Option.getD_some]
      rw [if_pos]
      · rw [h1] at hany2
        simp only [Option.getD_some] at hany2
        exact hany2
    refine ⟨(alookup fi f).getD [] ++ [(sid, sz)], h2, ?_⟩
    rw [List.count_append]
    have hz : ((alookup fi f).getD []).count (sid, sz) = 0 := by
      rw [List.count_eq_zero]
      intro hin
      exact hnot (List.mem_map.mpr ⟨(sid, sz), hin, rfl⟩)
    rw [hz]
    simp

/-- Witness for C6: a duplicate pair is dropped, a duplicate sequence
keeps the per-file host ids distinct, and a doubled add_file on the empty
index yields exactly one entry. -/
theorem add_file_idempotent_witness :
    add_file [("a.txt", [("CS1", (100 : Int))])] "CS1" "a.txt" 100 =
      [("a.txt", [("CS1", (100 : Int))])] ∧
    HostsNodup (run_add_files [] [("CS1", "a.txt", 100), ("CS1", "a.txt", 100)]) ∧
    ∃ hosts,
      alookup (add_file (add_file [] "CS1" "a.txt" 100) "CS1" "a.txt" 100) "a.txt" =
        some hosts ∧ hosts.count ("CS1", (100 : Int)) = 1 :=
  ⟨add_file_idempotent.1 [("a.txt", [("CS1", (100 : Int))])] "CS1" "a.txt" 100
      [("CS1", (100 : Int))] (by decide) (by decide),
   add_file_idempotent.2.1 [("CS1", "a.txt", 100), ("CS1", "a.txt", 100)],
   add_file_idempotent.2.2 [] "CS1" "a.txt" 100
      (fun hosts h => Option.noConfusion h)⟩

/-! ## Lemmas about the liveness sweep -/

theorem mem_sweep_notifs {now : Int} {servers : MonitorMap} {sid : String}
    (h : sid ∈ (check_sweep now servers).2) : sid ∈ servers.map Prod.fst := by
  induction servers with
  | nil => simp [check_sweep] at h
  | cons p rest ih =>
    obtain ⟨psid, pinfo⟩ := p
    simp only [check_sweep] at h
    by_cases hc : pinfo.status = "alive" ∧ now - pinfo.last_seen > HEARTBEAT_TIMEOUT
    · rw [if_pos hc] at h
      simp only at h
      rcases List.mem_cons.mp h with rfl | h2
      · simp
      · simp [ih h2]
    · rw [if_neg hc] at h
      simp only at h
      simp [ih h]

/-- C2: in one sweep of the liveness checker, every record that is alive
and silent for more than HEARTBEAT_TIMEOUT is set to dead and the
failure-notification path is invoked exactly once for it, while a record
that is already dead stays dead and triggers no notification attempt at
all (so later sweeps over the dead record never renotify). -/
theorem check_sweep_edge_triggered (now : Int) (servers : MonitorMap)
    (hnodup : (servers.map Prod.fst).Nodup) :
    (∀ sid info, (sid, info) ∈ servers → info.status = "alive" →
        now - info.last_seen > HEARTBEAT_TIMEOUT →
        (sid, { info with status := "dead" }) ∈ (check_sweep now servers).1 ∧
        (check_sweep now servers).2.count sid = 1) ∧
    (∀ sid info, (sid, info) ∈ servers → info.status = "dead" →
        (sid, info) ∈ (check_sweep now servers).1 ∧
        sid ∉ (check_sweep now servers).2) := by
  induction servers with
  | nil =>
    constructor
    · intro sid info hmem _ _
      exact absurd hmem (List.not_mem_nil _)
    · intro sid info hmem _
      exact absurd hmem (List.not_mem_nil _)
  | cons p rest ih =>
    obtain ⟨psid, pinfo⟩ := p
    rw [List.map_cons, List.nodup_cons] at hnodup
    obtain ⟨hpnot, hnd⟩ := hnodup
    obtain ⟨ih1, ih2⟩ := ih hnd
    by_cases hc : pinfo.status = "alive" ∧ now - pinfo.last_seen > HEARTBEAT_TIMEOUT
    · have hstep1 : (check_sweep now ((psid, pinfo) :: rest)).1 =
          (psid, { pinfo with status := "dead" }) :: (check_sweep now rest).1 := by
        simp only [check_sweep, if_pos hc]
      have hstep2 : (check_sweep now ((psid, pinfo) :: rest)).2 =
          psid :: (check_sweep now rest).2 := by
        simp only [check_sweep, if_pos hc]
      constructor
      · intro sid info hmem halive hstale
        rw [hstep1, hstep2]
        rcases List.mem_cons.mp hmem with heq | hmem2
        · injection heq with e1 e2
          subst e1
          subst e2
          refine ⟨List.mem_cons_self _ _, ?_⟩
          have h0 : (check_sweep now rest).2.count sid = 0 := by
            rw [List.count_eq_zero]
            intro hin
            exact hpnot (mem_sweep_notifs hin)
          rw [List.count_cons, h0]
          simp
        · obtain ⟨hm, hcnt⟩ := ih1 sid info hmem2 halive hstale
          refine ⟨List.mem_cons_of_mem _ hm, ?_⟩
          have hsid : sid ∈ rest.map Prod.fst := List.mem_map.mpr ⟨(sid, info), hmem2, rfl⟩
          have hne : psid ≠ sid := fun hh => hpnot (hh ▸ hsid)
          rw [List.count_cons, hcnt]
          simp [hne]
      · intro sid info hmem hdead
        rw [hstep1, hstep2]
        rcases List.mem_cons.mp hmem with heq | hmem2
        · injection heq with e1 e2
          subst e1
          subst e2
          rw [hdead] at hc
          exact absurd hc.1 (by decide)
        · obtain ⟨hm, hnot⟩ := ih2 sid info hmem2 hdead
          refine ⟨List.mem_cons_of_mem _ hm, ?_⟩
          intro hin
          rcases List.mem_cons.mp hin with rfl | hin2
          · exact hpnot (List.mem_map.mpr ⟨(sid, info), hmem2, rfl⟩)
          · exact hnot hin2
    · have hstep1 : (check_sweep now ((psid, pinfo) :: rest)).1 =
          (psid, pinfo) :: (check_sweep now rest).1 := by
        simp only [check_sweep, if_neg hc]
      have hstep2 : (check_sweep now ((psid, pinfo) :: rest)).2 =
          (check_sweep now rest).2 := by
        simp only [check_sweep, if_neg hc]
      constructor
      · intro sid info hmem halive hstale
        rw [hstep1, hstep2]
        rcases List.mem_cons.mp hmem with heq | hmem2
        · injection heq with e1 e2
          subst e1
          subst e2
          exact absurd ⟨halive, hstale⟩ hc
        · obtain ⟨hm, hcnt⟩ := ih1 sid info hmem2 halive hstale
          exact ⟨List.mem_cons_of_mem _ hm, hcnt⟩
      · intro sid info hmem hdead
        rw [hstep1, hstep2]
        rcases List.mem_cons.mp hmem with heq | hmem2
        · injection heq with e1 e2
          subst e1
          subst e2
          refine ⟨List.mem_cons_self _ _, ?_⟩
          intro hin
          exact hpnot (mem_sweep_notifs hin)
        · obtain ⟨hm, hnot⟩ := ih2 sid info hmem2 hdead
          exact ⟨List.mem_cons_of_mem _ hm, hnot⟩

/-- Witness for C2: at time 30 the stale-alive record CS1 (last_seen 10)
flips to dead with exactly one notification, while the dead record CS2 is
untouched and never renotified. -/
theorem check_sweep_edge_triggered_witness :
    ((("CS1" : String), ({ hbStaleW with status := "dead" } : HeartbeatRecord)) ∈
        (check_sweep 30 monW).1 ∧
      (check_sweep 30 monW).2.count "CS1" = 1) ∧
    ((("CS2" : String), hbDeadW) ∈ (check_sweep 30 monW).1 ∧
      "CS2" ∉ (check_sweep 30 monW).2) :=
  ⟨(check_sweep_edge_triggered 30 monW (by decide)).1 "CS1" hbStaleW (by decide) (by decide)
      (by decide),
    (check_sweep_edge_triggered 30 monW (by decide)).2 "CS2" hbDeadW (by decide) (by decide)⟩

/-- C4: a heartbeat for a server whose record is dead sets the record back
to alive with last_seen refreshed, logs the recovery event (`some true`),
and sends no failure notification (the heartbeat listener never invokes
the notification path; only the alive-to-dead sweep transition does). -/
theorem heartbeat_recovery_no_notification (servers : MonitorMap) (now : Int) (msg : String)
    (sid ip tcpS loadS nfS : String) (more : List String)
    (hpre : pyStartswith msg "HEARTBEAT" = true)
    (htok : pyTokens msg = "HEARTBEAT" :: sid :: ip :: tcpS :: loadS :: nfS :: more)
    (tcp load nf : Int)
    (htcp : pyInt tcpS = some tcp) (hload : pyInt loadS = some load)
    (hnf : pyInt nfS = some nf)
    (info : HeartbeatRecord) (hmem : alookup servers sid = some info)
    (hdead : info.status = "dead") :
    processHeartbeat servers now msg =
      (aset servers sid ⟨ip, tcp, now, load, nf, "alive"⟩, some true, []) ∧
    alookup (processHeartbeat servers now msg).1 sid =
      some ⟨ip, tcp, now, load, nf, "alive"⟩ := by
  have hlen : 6 ≤ (pyTokens msg).length := by
    rw [htok]
    simp only [List.length_cons]
    omega
  have hmain : processHeartbeat servers now msg =
      (aset servers sid ⟨ip, tcp, now, load, nf, "alive"⟩, some true, []) := by
    simp [processHeartbeat, hpre, htok, hlen, htcp, hload, hnf, hmem, hdead]
  refine ⟨hmain, ?_⟩
  rw [hmain]
  exact alookup_aset_self servers sid _

/-- Witness for C4: the dead record CS1 receives a heartbeat at time 50
and comes back alive with no notification. -/
theorem heartbeat_recovery_no_notification_witness :
    processHeartbeat [("CS1", hbDeadW)] 50 "HEARTBEAT CS1 localhost 7001 2 3" =
      (aset [("CS1", hbDeadW)] "CS1" ⟨"localhost", 7001, 50, 2, 3, "alive"⟩, some true, []) ∧
    alookup (processHeartbeat [("CS1", hbDeadW)] 50 "HEARTBEAT CS1 localhost 7001 2 3").1
        "CS1" = some ⟨"localhost", 7001, 50, 2, 3, "alive"⟩ :=
  heartbeat_recovery_no_notification [("CS1", hbDeadW)] 50 "HEARTBEAT CS1 localhost 7001 2 3"
    "CS1" "localhost" "7001" "2" "3" [] (by decide) (by decide) 7001 2 3 (by decide)
    (by decide) (by decide) hbDeadW (by decide) (by decide)

/-- C10: a malformed heartbeat datagram, either with fewer than six tokens
or with a tcp_port, load or num_files field that is not a valid integer,
leaves the Monitor server map completely unchanged and the listener loop
continues with the following datagrams. -/
theorem heartbeat_malformed_ignored (servers : MonitorMap) (now : Int) (msg : String)
    (h : (pyTokens msg).length < 6 ∨
      ∃ t0 t1 t2 tcpS loadS nfS more,
        pyTokens msg = t0 :: t1 :: t2 :: tcpS :: loadS :: nfS :: more ∧
        (pyInt tcpS = none ∨ pyInt loadS = none ∨ pyInt nfS = none)) :
    processHeartbeat servers now msg = (servers, none, []) ∧
    ∀ more, runHeartbeats servers ((now, msg) :: more) = runHeartbeats servers more := by
  have hmain : processHeartbeat servers now msg = (servers, none, []) := by
    by_cases hsw : pyStartswith msg "HEARTBEAT" = true
    · rcases h with hlen | ⟨t0, t1, t2, tcpS, loadS, nfS, more, htok, hbad⟩
      · simp [processHeartbeat, hsw, Nat.not_le.mpr hlen]
      · have hlen6 : 6 ≤ (pyTokens msg).length := by
          rw [htok]
          simp only [List.length_cons]
          omega
        rcases hbad with hb | hb | hb
        · simp [processHeartbeat, hsw, htok, hlen6, hb]
        · cases htcp : pyInt tcpS with
          | none => simp [processHeartbeat, hsw, htok, hlen6, htcp]
          | some tcp => simp [processHeartbeat, hsw, htok, hlen6, htcp, hb]
        · cases htcp : pyInt tcpS with
          | none => simp [processHeartbeat, hsw, htok, hlen6, htcp]
          | some tcp =>
            cases hload : pyInt loadS with
            | none => simp [processHeartbeat, hsw, htok, hlen6, htcp, hload]
            | some load => simp [processHeartbeat, hsw, htok, hlen6, htcp, hload, hb]
    · simp [processHeartbeat, hsw]
  refine ⟨hmain, fun more2 => ?_⟩
  show runHeartbeats (processHeartbeat servers now msg).1 more2 = runHeartbeats servers more2
  rw [hmain]

/-- Witness for C10: a heartbeat whose tcp_port field is 70x1 is dropped
and the next well-formed datagram is still processed. -/
theorem heartbeat_malformed_ignored_witness :
    processHeartbeat [("CS1", hbStaleW)] 60 "HEARTBEAT CS1 localhost 70x1 2 3" =
      ([("CS1", hbStaleW)], none, []) ∧
    runHeartbeats [("CS1", hbStaleW)]
        [(60, "HEARTBEAT CS1 localhost 70x1 2 3"), (61, "HEARTBEAT CS1 localhost 7001 4 3")] =
      runHeartbeats [("CS1", hbStaleW)] [(61, "HEARTBEAT CS1 localhost 7001 4 3")] :=
  ⟨(heartbeat_malformed_ignored [("CS1", hbStaleW)] 60 "HEARTBEAT CS1 localhost 70x1 2 3"
      (Or.inr ⟨"HEARTBEAT", "CS1", "localhost", "70x1", "2", "3", [], by decide,
        Or.inl (by decide)⟩)).1,
    (heartbeat_malformed_ignored [("CS1", hbStaleW)] 60 "HEARTBEAT CS1 localhost 70x1 2 3"
      (Or.inr ⟨"HEARTBEAT", "CS1", "localhost", "70x1", "2", "3", [], by decide,
        Or.inl (by decide)⟩)).2 [(61, "HEARTBEAT CS1 localhost 7001 4 3")]⟩

/-- C8 counterexample: an ADD_FILE line with only three tokens is a
recognized command with wrong token count, yet handle_content_server sends
no response at all (empty response list) instead of ERROR INVALID_FORMAT. -/
theorem invalid_format_counterexample :
    handle_cs_line ⟨[], []⟩ "10.0.0.1" 0 "ADD_FILE CS1 a.txt" =
      Except.ok ((⟨[], []⟩ : IndexState), ([] : List String)) ∧
    (([] : List String) ≠ ["ERROR INVALID_FORMAT"]) := by
  constructor
  · rfl
  · decide

/-- C8 amended: a REGISTER with fewer than four tokens, an index-server
GET with fewer than two tokens, and a content-server GET with fewer than
two tokens each get ERROR INVALID_FORMAT; but an ADD_FILE with fewer than
four tokens is silently ignored with no response and no state change, and
a REGISTER whose port fields do not parse as integers raises, closing the
connection without any response. -/
theorem invalid_format_behaviour :
    (∀ st ip now line, pyStartswith line "REGISTER" = true → (pyTokens line).length < 4 →
        handle_cs_line st ip now line = .ok (st, ["ERROR INVALID_FORMAT"])) ∧
    (∀ st mon msg, pyStartswith msg "GET" = true → (pyTokens msg).length < 2 →
        handle_client_message st mon msg = (st, ["ERROR INVALID_FORMAT"])) ∧
    (∀ files msg, pyStartswith msg "GET" = true → (pyTokens msg).length < 2 →
        cs_handle_client files msg = ["ERROR INVALID_FORMAT"]) ∧
    (∀ st ip now line, pyStartswith line "REGISTER" = false →
        pyStartswith line "ADD_FILE" = true → (pyTokens line).length < 4 →
        handle_cs_line st ip now line = .ok (st, [])) ∧
    (∀ st ip now line, pyStartswith line "REGISTER" = true → 4 ≤ (pyTokens line).length →
        (pyInt ((pyTokens line).getD 2 "") = none ∨
          pyInt ((pyTokens line).getD 3 "") = none) →
        handle_cs_line st ip now line = .error st) := by
  refine ⟨?_, ?_, ?_, ?_, ?_⟩
  · intro st ip now line hpre hlen
    simp [handle_cs_line, hpre, Nat.not_le.mpr hlen]
  · intro st mon msg hpre hlen
    have hne : msg ≠ "HELLO" := by
      intro hh
      subst hh
      exact absurd hpre (by decide)
    simp [handle_client_message, hne, hpre, Nat.not_le.mpr hlen]
  · intro files msg hpre hlen
    simp [cs_handle_client, hpre, Nat.not_le.mpr hlen]
  · intro st ip now line hreg hadd hlen
    simp [handle_cs_line, hreg, hadd, Nat.not_le.mpr hlen]
  · intro st ip now line hpre hlen hbad
    rcases hbad with hb | hb
    · simp only [List.getD_eq_getElem?_getD] at hb
      simp [handle_cs_line, hpre, hlen, hb]
    · simp only [List.getD_eq_getElem?_getD] at hb
      cases htcp : pyInt ((pyTokens line)[2]?.getD "") with
      | none => simp [handle_cs_line, hpre, hlen, htcp]
      | some tcp => simp [handle_cs_line, hpre, hlen, htcp, hb]

/-- Witness for the C8 amended theorem at concrete request lines. -/
theorem invalid_format_behaviour_witness :
    handle_cs_line ⟨[], []⟩ "10.0.0.1" 0 "REGISTER CS1" =
      Except.ok ((⟨[], []⟩ : IndexState), ["ERROR INVALID_FORMAT"]) ∧
    handle_client_message ⟨[], []⟩ none "GET" =
      ((⟨[], []⟩ : IndexState), ["ERROR INVALID_FORMAT"]) ∧
    cs_handle_client [] "GET" = ["ERROR INVALID_FORMAT"] ∧
    handle_cs_line ⟨[], []⟩ "10.0.0.1" 0 "ADD_FILE CS1 b.txt" =
      Except.ok ((⟨[], []⟩ : IndexState), ([] : List String)) ∧
    handle_cs_line ⟨[], []⟩ "10.0.0.1" 0 "REGISTER CS1 7x01 7002" =
      Except.error (⟨[], []⟩ : IndexState) :=
  ⟨invalid_format_behaviour.1 ⟨[], []⟩ "10.0.0.1" 0 "REGISTER CS1" (by decide) (by decide),
    invalid_format_behaviour.2.1 ⟨[], []⟩ none "GET" (by decide) (by decide),
    invalid_format_behaviour.2.2.1 [] "GET" (by decide) (by decide),
    invalid_format_behaviour.2.2.2.1 ⟨[], []⟩ "10.0.0.1" 0 "ADD_FILE CS1 b.txt" (by decide)
      (by decide) (by decide),
    invalid_format_behaviour.2.2.2.2 ⟨[], []⟩ "10.0.0.1" 0 "REGISTER CS1 7x01 7002"
      (by decide) (by decide) (Or.inl (by decide))⟩

/-- C9 counterexample: the message "GETX a" has first token GETX, which is
none of the recognized commands of the index client handler, yet because
dispatch tests startswith GET the handler treats it as a GET and answers
ERROR FILE_NOT_FOUND rather than ERROR UNKNOWN_COMMAND. -/
theorem unknown_command_counterexample :
    (pyTokens "GETX a").getD 0 "" = "GETX" ∧
    ("GETX" : String) ∉ (["HELLO", "GET", "LIST_FILES", "LIST_SERVERS"] : List String) ∧
    handle_client_message ⟨[], []⟩ none "GETX a" =
      ((⟨[], []⟩ : IndexState), ["ERROR FILE_NOT_FOUND"]) ∧
    (["ERROR FILE_NOT_FOUND"] ≠ (["ERROR UNKNOWN_COMMAND"] : List String)) := by
  refine ⟨by decide, by decide, ?_, by decide⟩
  rfl

/-- C9 amended: a message failing every dispatch test of its endpoint
(index client handler: not HELLO, LIST_FILES or LIST_SERVERS and not
starting with GET; Monitor TCP handler: not LIST_SERVERS or PING and not
starting with REGISTER_INDEX; content server: not starting with GET) gets
ERROR UNKNOWN_COMMAND, and the index and Monitor connections remain usable
for a subsequent well-formed command; dispatch is by startswith, so a
message merely beginning with GET or REGISTER_INDEX is not answered with
UNKNOWN_COMMAND even when its first token is unrecognized. -/
theorem unknown_command_behaviour :
    (∀ st mon msg rest, msg ≠ "HELLO" → pyStartswith msg "GET" = false →
        msg ≠ "LIST_FILES" → msg ≠ "LIST_SERVERS" →
        handle_client_message st mon msg = (st, ["ERROR UNKNOWN_COMMAND"]) ∧
        handle_client_messages st mon (msg :: rest) =
          ((handle_client_messages st mon rest).1,
            ["ERROR UNKNOWN_COMMAND"] :: (handle_client_messages st mon rest).2)) ∧
    (∀ st msg rest, msg ≠ "LIST_SERVERS" → pyStartswith msg "REGISTER_INDEX" = false →
        msg ≠ "PING" →
        handle_tcp_message st msg = some (st, ["ERROR UNKNOWN_COMMAND"]) ∧
        handle_tcp_messages st (msg :: rest) =
          ((handle_tcp_messages st rest).1,
            ["ERROR UNKNOWN_COMMAND"] :: (handle_tcp_messages st rest).2)) ∧
    (∀ files msg, pyStartswith msg "GET" = false →
        cs_handle_client files msg = ["ERROR UNKNOWN_COMMAND"]) := by
  refine ⟨?_, ?_, ?_⟩
  · intro st mon msg rest h1 h2 h3 h4
    have hone : handle_client_message st mon msg = (st, ["ERROR UNKNOWN_COMMAND"]) := by
      simp [handle_client_message, h1, h2, h3, h4]
    refine ⟨hone, ?_⟩
    simp only [handle_client_messages]
    rw [hone]
  · intro st msg rest h1 h2 h3
    have hone : handle_tcp_message st msg = some (st, ["ERROR UNKNOWN_COMMAND"]) := by
      simp [handle_tcp_message, h1, h2, h3]
    refine ⟨hone, ?_⟩
    simp only [handle_tcp_messages]
    rw [hone]
  · intro files msg h1
    simp [cs_handle_client, h1]

/-- Witness for the C9 amended theorem: the unrecognized message FOO at
each endpoint, followed by a well-formed command on the same
connection. -/
theorem unknown_command_behaviour_witness :
    (handle_client_message ⟨[], []⟩ none "FOO" =
        ((⟨[], []⟩ : IndexState), ["ERROR UNKNOWN_COMMAND"]) ∧
      handle_client_messages ⟨[], []⟩ none ["FOO", "HELLO"] =
        ((handle_client_messages ⟨[], []⟩ none ["HELLO"]).1,
          ["ERROR UNKNOWN_COMMAND"] :: (handle_client_messages ⟨[], []⟩ none ["HELLO"]).2)) ∧
    (handle_tcp_message ⟨[], none⟩ "FOO" =
        some ((⟨[], none⟩ : MonitorTCPState), ["ERROR UNKNOWN_COMMAND"]) ∧
      handle_tcp_messages ⟨[], none⟩ ["FOO", "PING"] =
        ((handle_tcp_messages ⟨[], none⟩ ["PING"]).1,
          ["ERROR UNKNOWN_COMMAND"] :: (handle_tcp_messages ⟨[], none⟩ ["PING"]).2)) ∧
    cs_handle_client [] "FOO" = ["ERROR UNKNOWN_COMMAND"] :=
  ⟨unknown_command_behaviour.1 ⟨[], []⟩ none "FOO" ["HELLO"] (by decide) (by decide)
      (by decide) (by decide),
    unknown_command_behaviour.2.1 ⟨[], none⟩ "FOO" ["PING"] (by decide) (by decide)
      (by decide),
    unknown_command_behaviour.2.2 [] "FOO" (by decide)⟩

end MicroCDN
